import Mathlib

/-!
Verification of the threads-automation repository (Python sources under
`threads_post_automation/`) against its natural-language specification.

The Python code is shallowly embedded: pure fragments become Lean functions on
`String` / `List` / `Nat` / `ℚ`; the DOM and the remote LLM gateway are
modelled as explicit inputs (container records, gateway oracles); Python
randomness (`random.sample`, `random.choice`) is modelled by passing the drawn
values explicitly, so theorems quantify over all possible random outcomes.
-/

namespace Threads

/-! ### String helpers mirroring Python primitives

Python strings are sequences of code points; so are Lean `String`s viewed
through `String.data : List Char`.  All helpers below work on `List Char`
to keep kernel reduction simple and predictable. -/

/-- `charsStartWith pat s` : does `s` start with `pat`? (helper for substring search). -/
def charsStartWith : List Char → List Char → Bool
  | [], _ => true
  | _ :: _, [] => false
  | p :: ps, c :: cs => p = c && charsStartWith ps cs

/-- `charsContain hay needle` models Python's substring operator `needle in hay`. -/
def charsContain (hay needle : List Char) : Bool :=
  charsStartWith needle hay ||
    match hay with
    | [] => false
    | _ :: rest => charsContain rest needle

/-- Python `needle in hay` on strings. -/
def pyIn (needle hay : String) : Bool :=
  charsContain hay.data needle.data

/-- Python slice `s[:n]` on a string (code-point prefix). -/
def pyTake (n : Nat) (s : String) : String :=
  String.mk (s.data.take n)

/-- Whitespace characters stripped by Python `str.strip()` (the ones relevant
to scraped like-count texts). -/
def pyIsSpace (c : Char) : Bool :=
  c = ' ' || c = '\t' || c = '\n' || c = '\r'

/-- Python `str.strip()`: drop leading and trailing whitespace. -/
def pyStrip (s : List Char) : List Char :=
  ((s.dropWhile pyIsSpace).reverse.dropWhile pyIsSpace).reverse

/-- Python `str.replace(old, new)` for a single-character `old` removed
(`new = ""`), which is the only form the scraper uses (`replace('K','')`,
`replace('k','')`, `replace('万','')`, `replace(',','')`). -/
def pyRemoveChar (old : Char) (s : List Char) : List Char :=
  s.filter (fun c => c ≠ old)

/-- Python truthiness of an optional string: `None` and `""` are falsy. -/
def truthy : Option String → Bool
  | none => false
  | some s => s ≠ ""

/-! ### `chatgpt_integration.call_openai_api` — model parameter dispatch

From `chatgpt_integration.py` lines 28-64.  The OpenAI request is a record of
the parameters actually passed to `openai.ChatCompletion.create`; the remote
service itself is an oracle `ApiRequest → Except String String` (`.error`
models a raised exception, `.ok` a response whose first choice has the given
message content). -/

/-- One chat message, `{"role": ..., "content": ...}`. -/
structure ChatMessage where
  role : String
  content : String
deriving DecidableEq, Repr

/-- The keyword arguments passed to `openai.ChatCompletion.create`. -/
structure ApiRequest where
  model : String
  messages : List ChatMessage
  temperature : Option ℚ
  max_tokens : Option Nat
  max_completion_tokens : Option Nat
deriving DecidableEq, Repr

/-- `model = os.getenv("OPENAI_MODEL", "o1")` — the configured default model
(environment unset, so the documented default applies). -/
def defaultModel : String := "o1"

/-- `new_gen_models = ["o1", "o3", "gpt-4o", "gpt-4-1106-preview"]`
(`chatgpt_integration.py` line 40). -/
def new_gen_models : List String := ["o1", "o3", "gpt-4o", "gpt-4-1106-preview"]

/-- `new_gen_models` of `test_api.py` line 33 (adds `"gpt-4.1"`). -/
def new_gen_models_test : List String :=
  ["o1", "o3", "gpt-4o", "gpt-4-1106-preview", "gpt-4.1"]

/-- `any(model_id in use_model for model_id in new_gen_models)`. -/
def is_new_gen (allowList : List String) (use_model : String) : Bool :=
  allowList.any (fun model_id => pyIn model_id use_model)

/-- `use_model = custom_model if custom_model else model`: Python truthiness,
so an empty custom model string also falls back to the global default. -/
def resolve_model (custom_model : Option String) : String :=
  match custom_model with
  | some s => if s = "" then defaultModel else s
  | none => defaultModel

/-- The request built by `call_openai_api` (lines 40-59): new-generation models
get `max_completion_tokens=4000` and no `temperature`; legacy models get
`max_tokens=4000` and `temperature=0.7`. -/
def build_request (allowList : List String) (use_model : String)
    (messages : List ChatMessage) : ApiRequest :=
  if is_new_gen allowList use_model then
    { model := use_model, messages := messages, temperature := none,
      max_tokens := none, max_completion_tokens := some 4000 }
  else
    { model := use_model, messages := messages, temperature := some (7 / 10),
      max_tokens := some 4000, max_completion_tokens := none }

/-- The LLM gateway: consumes the request, returns the content of
`response.choices[0].message["content"]`, or raises (`.error`). -/
def Gateway : Type := ApiRequest → Except String String

/-- `call_openai_api(messages, custom_model)` (lines 28-64): builds the
dispatched request and converts any raised exception to `None`. -/
def call_openai_api (gw : Gateway) (messages : List ChatMessage)
    (custom_model : Option String) : Option String :=
  match gw (build_request new_gen_models (resolve_model custom_model) messages) with
  | .ok content => some content
  | .error _ => none

/-! ### Prompt templates (`prompt_templates.py`) and pipeline stages -/

/-- Modelled from the spec: `ANALYTICS_PROMPT` is imported by
`chatgpt_integration.py` (line 10) but is absent from `prompt_templates.py`
(which only defines `COMBINED_PROMPT` and `FINAL_POST_PROMPT`).  Per spec
§4.3 each stage uses "a fixed, versioned prompt" into which the post text is
substituted; `ANALYTICS_PROMPT.format(refers=post_text)` is modelled as a
fixed template spliced with the post text. -/
def ANALYTICS_PROMPT_format (refers : String) : String :=
  "ANALYTICS_PROMPT refers=" ++ refers

/-- Modelled from the spec: `TEMPLATE_PROMPT` is likewise imported but absent
from `prompt_templates.py`.  `TEMPLATE_PROMPT.format(analysis=..., refers=...)`
is modelled as a fixed template spliced with both arguments. -/
def TEMPLATE_PROMPT_format (analysis refers : String) : String :=
  "TEMPLATE_PROMPT analysis=" ++ analysis ++ " refers=" ++ refers

/-- `FINAL_POST_PROMPT` (`prompt_templates.py` lines 95-139), the text up to
the `\x7btarget\x7d` placeholder. -/
def FINAL_POST_PROMPT_part1 : String :=
  "\nあなたはSNSのThreadsプロのコンテンツライターです。\n\n#【今回のタスクの目的】\n・分析結果とテンプレートを元に、特定のターゲット向けのThreads投稿を作成する\n\n#【今回のタスクの背景】\n・私の会社ではThreadsでの集客に強みがあります。\n・Threadsのアカウントでは一般のオーガニックユーザーに成り切って運用を行います。\n・Threadsをバズらせることに関しては強みですが、タスクが属人化され社内の一部の人間にしかバズらせることができない状況です。\n・バズるThreadsの投稿作成をAIに完全に任せたいという社内方針があります。\n・Threadsをバズらせるには「既にバズっている投稿をテンプレート化」→「バズった要因を固定して、運用してるアカウントに合った投稿テキストに変換」のタスクが必要です。\n・今回は「特定のターゲット向けに具体的な投稿に仕上げる」フェーズです。\n\n#【制約条件】\n・最下部に【投稿分析】があります。実際にバズった投稿を分析したものです。\n・【ターゲット】に合わせて、【投稿分析】の1~4に忠実に従って投稿作成してください\n・出力結果は投稿本文のみで、コピペしてスレッズに投稿できるようにしてください\n\n\n# 【出力フォーマット】\n※投稿本文のみ生成する\n\n# 【出力例】\n私の職場にめっちゃ学歴高いけど\nミスを連発、報連相もしない、タスク漏れで手に負えない\nみたいなADHDの権化みたいな同僚がいて\n「ああ学歴って仕事に関係ないんだな」\nと思ってたけど、ある日そいつが別部署に異動で\n\n即レス、タスク管理、根回しやりまくって\n爆速でプロジェクト進めてなにかと思ったら\nそいつの趣味が専門の仕事だった。\n\n後々聞いたら\n仕事ができなかったのはADHDじゃなくて\nただ好きになれるかどうかだったという話...\n\n\n# 【ターゲット】\n"

/-- `FINAL_POST_PROMPT`, the text between the `\x7btarget\x7d` and
`\x7btemplate\x7d` placeholders. -/
def FINAL_POST_PROMPT_part2 : String := "\n\n# 【投稿テンプレート】\n"

/-- `FINAL_POST_PROMPT.format(template=..., target=...)`
(`chatgpt_integration.py` line 134): splice the two values into the fixed
template. -/
def FINAL_POST_PROMPT_format (template target : String) : String :=
  FINAL_POST_PROMPT_part1 ++ target ++ FINAL_POST_PROMPT_part2 ++ template ++ "\n"

/-- `messages = [{"role": "user", "content": prompt}]`. -/
def user_message (content : String) : List ChatMessage :=
  [{ role := "user", content := content }]

/-- `analyze_post(post_text, post_username)` (`chatgpt_integration.py`
lines 66-89): one gateway call on the analytics prompt; the surrounding
`try/except` re-catches nothing new since `call_openai_api` already returns
`None` on failure. -/
def analyze_post (gw : Gateway) (post_text : String) : Option String :=
  call_openai_api gw (user_message (ANALYTICS_PROMPT_format post_text)) none

/-- `create_template(analysis, post_text, post_username)` (lines 91-115). -/
def create_template (gw : Gateway) (analysis post_text : String) : Option String :=
  call_openai_api gw (user_message (TEMPLATE_PROMPT_format analysis post_text)) none

/-- `generate_final_post(template, target, username)` (lines 117-143); the
`str(...)` coercions are identities here since both arguments are strings. -/
def generate_final_post (gw : Gateway) (template target : String) : Option String :=
  call_openai_api gw (user_message (FINAL_POST_PROMPT_format template target)) none

/-- `_process_post(post, targets)` (lines 145-187): analyze, then template,
then fan out the final-post generation over all targets, keeping only truthy
results.  `executor.map` over targets preserves order, so the fan-out is the
in-order fold below.  A falsy (`None` or `""`) analysis or template returns
the empty result list for this post. -/
def process_post (gw : Gateway) (targets : List String)
    (post : String × String × Nat) : List (String × String × String) :=
  let username := post.1
  let post_text := post.2.1
  let analysis := analyze_post gw post_text
  if truthy analysis then
    let template := create_template gw (analysis.getD "") post_text
    if truthy template then
      targets.foldl (fun results target =>
        let final_post := generate_final_post gw (template.getD "") target
        if truthy final_post then results ++ [(username, target, final_post.getD "")]
        else results) []
    else []
  else []

/-- `process_posts(posts, targets)` (lines 203-229): `executor.map` keeps the
input order and `final_posts.extend(post_results)` concatenates per-post
result lists in that order. -/
def process_posts (gw : Gateway) (posts : List (String × String × Nat))
    (targets : List String) : List (String × String × String) :=
  posts.foldl (fun final_posts post => final_posts ++ process_post gw targets post) []

/-- Append `v` to the entry of key `tgt` in an insertion-ordered association
list, creating the entry if missing — the behavior of
`final_posts_by_target[tgt].append(...)` with the `if tgt not in ...` guard
(`main.py` lines 229-233). -/
def group_append (tgt : String) (v : String × String × String) :
    List (String × List (String × String × String)) →
    List (String × List (String × String × String))
  | [] => [(tgt, [v])]
  | (k, vs) :: rest =>
    if k = tgt then (k, vs ++ [v]) :: rest else (k, vs) :: group_append tgt v rest

/-- `final_posts_by_target` construction in `process_csv_file`
(`main.py` lines 229-233): group pipeline results by target, keys in first
-appearance order (Python dict insertion order). -/
def group_by_target (final_posts : List (String × String × String)) :
    List (String × List (String × String × String)) :=
  final_posts.foldl (fun d r => group_append r.2.1 r d) []

/-! ### `main.save_final_posts_by_account` — partition, scheduling, file writes

From `main.py` lines 49-190.  Randomness is made explicit: `shuffled` stands
for `random.sample(target_posts, len(target_posts))` (a permutation of the
target's posts) and `draws` for the successive values of
`random.choice(account_usernames)` (one independent draw per remaining post,
drawn *with replacement*).  The per-account dictionary keyed by username is an
insertion-ordered association list. -/

/-- `posts_per_account = total // len(accounts)`, bumped to 1 when the
quotient is 0 but posts exist (`main.py` lines 110-112). -/
def posts_per_account (total numAccounts : Nat) : Nat :=
  let p := total / numAccounts
  if p = 0 ∧ total > 0 then 1 else p

/-- `posts_for_accounts[username] = value` — Python dict assignment on an
insertion-ordered association list. -/
def dict_set {α : Type} (k : String) (v : List α) :
    List (String × List α) → List (String × List α)
  | [] => [(k, v)]
  | (k', vs) :: rest =>
    if k' = k then (k, v) :: rest else (k', vs) :: dict_set k v rest

/-- `posts_for_accounts[k].append(p)` — append to an existing entry.  In the
source the key always exists (every account username was assigned a slice in
the preceding loop and `random.choice` draws from those usernames), so the
missing-key case (Python `KeyError`) is modelled as a no-op. -/
def dict_append {α : Type} (k : String) (p : α) :
    List (String × List α) → List (String × List α)
  | [] => []
  | (k', vs) :: rest =>
    if k' = k then (k', vs ++ [p]) :: rest else (k', vs) :: dict_append k p rest

/-- Dict lookup `posts_for_accounts.get(username, [])`. -/
def dict_get {α : Type} (k : String) : List (String × List α) → List α
  | [] => []
  | (k', vs) :: rest => if k' = k then vs else dict_get k rest

/-- Total number of posts held in the per-account dictionary. -/
def dict_total {α : Type} (d : List (String × List α)) : Nat :=
  (d.map (fun e => e.2.length)).sum

/-- The slice-assignment loop (`main.py` lines 118-126): account `i` receives
`shuffled[start:end]` with `start = i * posts_per_account` and
`end = min(start + ppa, total)`; when `start ≥ total` it receives `[]`.
That Python slice equals `(shuffled.drop (i * ppa)).take ppa`. -/
def assign_chunks {α : Type} (shuffled : List α) (ppa : Nat) :
    Nat → List String → List (String × List α) → List (String × List α)
  | _, [], d => d
  | i, u :: rest, d =>
    assign_chunks shuffled ppa (i + 1) rest
      (dict_set u ((shuffled.drop (i * ppa)).take ppa) d)

/-- The whole per-target distribution (`main.py` lines 105-134): slice-assign
`posts_per_account` posts to each account, then hand each post of
`remaining_posts = shuffled[len(accounts) * ppa:]` to the account drawn for it
(`random.choice(account_usernames)`, modelled by `draws`, one username per
remaining post, paired positionally). -/
def posts_for_accounts {α : Type} (target_posts : List α) (usernames : List String)
    (shuffled : List α) (draws : List String) : List (String × List α) :=
  let total := target_posts.length
  let ppa := posts_per_account total usernames.length
  let base := assign_chunks shuffled ppa 0 usernames []
  let remaining := shuffled.drop (usernames.length * ppa)
  (remaining.zip draws).foldl (fun d pu => dict_append pu.2 pu.1 d) base

/-- One output row (`main.py` lines 164-171); the scheduled time is kept in
minutes from the run's base time (`datetime` arithmetic on whole minutes is
exact, and `strftime('%Y-%m-%dT%H:%M:%S')` is injective on distinct
second-resolution datetimes). -/
structure OutRow where
  username : String
  content : String
  image : String
  replyContent : String
  replyImage : String
  scheduledTime : Nat
deriving DecidableEq, Repr

/-- The per-account row-building loop (`main.py` lines 150-173):
`hour_counter` starts at 0 and each post is scheduled at
`base_time + 15 * hour_counter` minutes before the counter is incremented. -/
def account_rows (username replyContent replyImage : String) (now : Nat) :
    Nat → List (String × String × String) → List OutRow
  | _, [] => []
  | hc, (_, _, post_content) :: rest =>
    { username := username, content := post_content, image := "",
      replyContent := replyContent, replyImage := replyImage,
      scheduledTime := now + 15 * hc } ::
      account_rows username replyContent replyImage now (hc + 1) rest

/-- Observable file-system operations of the batch writer. -/
inductive FileOp where
  | write (path : String)
  | rename (fromPath toPath : String)
deriving DecidableEq, Repr

/-- The file operations performed for one account's batch (`main.py` lines
146 and 176-177): a single `df.to_csv(username_filename, ...)` writing
directly to the final per-account file name — no temporary file and no
rename step. -/
def account_file_ops (username_filename : String) : List FileOp :=
  [FileOp.write username_filename]

/-! ### Number parsing used by the scraper -/

/-- Numeric value of a digit run, most significant first. -/
def natOfDigits (ds : List Char) : Nat :=
  ds.foldl (fun n c => 10 * n + (c.toNat - '0'.toNat)) 0

/-- The exact value of a parsed decimal literal:
`(-1)^neg * mant / 10^scale`. -/
structure PyDecimal where
  neg : Bool
  mant : Nat
  scale : Nat
deriving DecidableEq, Repr

/-- Python `float(s)` on the simple decimal forms occurring in like-count
texts: optional sign, an integer part and/or a fractional part with at least
one digit overall (`"12"`, `"1.2"`, `".5"`, `"5."`), kept as an exact scaled
decimal.  Exponent, `inf`/`nan` and underscore forms are not modelled; on
those this parser fails, and in `_extract_likes` a parse failure lands in the
same `except → 0` path the source takes for them.  (CPython parses these
texts to the nearest binary double; on like-count digit lengths the
subsequent `int(x * multiplier)` agrees with the exact decimal value used
here.) -/
def pyFloat (s : List Char) : Option PyDecimal :=
  let (neg, s1) :=
    match s with
    | '-' :: r => (true, r)
    | '+' :: r => (false, r)
    | _ => (false, s)
  let intPart := s1.takeWhile Char.isDigit
  let rest1 := s1.dropWhile Char.isDigit
  match rest1 with
  | [] =>
    if intPart.isEmpty then none
    else some ⟨neg, natOfDigits intPart, 0⟩
  | '.' :: rest2 =>
    let fracPart := rest2.takeWhile Char.isDigit
    if (rest2.dropWhile Char.isDigit).isEmpty then
      if intPart.isEmpty && fracPart.isEmpty then none
      else some ⟨neg, natOfDigits (intPart ++ fracPart), fracPart.length⟩
    else none
  | _ => none

/-- Python `int(x * mult)` for a parsed decimal `x`: the exact value is
`±(mant * mult) / 10^scale`, and `int()` truncates toward zero, which on the
nonnegative magnitude is Nat division. -/
def pyIntScaled (d : PyDecimal) (mult : Nat) : Int :=
  let n := d.mant * mult / 10 ^ d.scale
  if d.neg then -(n : Int) else (n : Int)

/-- `ThreadsScraper._extract_likes` (`scraper.py` lines 1739-1768) as a
function of the text of the first `span.x17qophe` element (`none` models "no
like element found").  `'K'`/`'k'` suffixes multiply by 1000, `'万'` by 10000;
otherwise the digits of the text are concatenated (`''.join(filter(
str.isdigit, ...)) or 0`, ASCII digits modelled); every failure path —
missing element, or a `ValueError`/`OverflowError` from `float()` caught by
the enclosing `except` — yields 0. -/
def extract_likes (likeText : Option String) : Int :=
  match likeText with
  | none => 0
  | some t0 =>
    if (pyStrip t0.data).contains 'K' || (pyStrip t0.data).contains 'k' then
      match pyFloat (pyRemoveChar 'k' (pyRemoveChar 'K' (pyStrip t0.data))) with
      | some d => pyIntScaled d 1000
      | none => 0
    else if (pyStrip t0.data).contains '万' then
      match pyFloat (pyRemoveChar '万' (pyStrip t0.data)) with
      | some d => pyIntScaled d 10000
      | none => 0
    else if ((pyStrip t0.data).filter Char.isDigit).isEmpty then 0
    else (natOfDigits ((pyStrip t0.data).filter Char.isDigit) : Int)

/-! ### `ThreadsScraper._is_ui_element_text` (`scraper.py` lines 794-837)

The regular expressions are all of the anchored form `^...$` under
`re.match`; `$` also matches just before one trailing newline, so matching is
full-match after stripping at most one final `'\n'`. -/

/-- Strip the single trailing newline tolerated by the regex anchor `$`. -/
def stripDollarNewline (s : List Char) : List Char :=
  match s.getLast? with
  | some '\n' => s.dropLast
  | _ => s

/-- Split a character list on a separator character (every occurrence). -/
def splitOnChar (sep : Char) : List Char → List (List Char)
  | [] => [[]]
  | c :: rest =>
    if c = sep then [] :: splitOnChar sep rest
    else
      match splitOnChar sep rest with
      | g :: gs => (c :: g) :: gs
      | [] => [[c]]

/-- A nonempty all-digit run (`\d+`). -/
def allDigits1 (s : List Char) : Bool :=
  !s.isEmpty && s.all Char.isDigit

/-- `re.match(r'^\d+(\,\d+)*$', text)`: comma-separated nonempty digit
groups. -/
def reDigitsCommas (s : List Char) : Bool :=
  (splitOnChar ',' s).all allDigits1

/-- `re.match(r'^\d+[kK]$|^\d+\.\d+[kK]$', text)`. -/
def reNumK (s : List Char) : Bool :=
  match s.getLast? with
  | some c =>
    (c = 'k' || c = 'K') &&
      (allDigits1 s.dropLast ||
        match splitOnChar '.' s.dropLast with
        | [a, b] => allDigits1 a && allDigits1 b
        | _ => false)
  | none => false

/-- `^\d+<suffix>$`: a digit run followed exactly by the literal suffix
(the Japanese relative-time patterns). -/
def numThen (suffix : List Char) (s : List Char) : Bool :=
  allDigits1 (s.takeWhile Char.isDigit) && s.dropWhile Char.isDigit == suffix

/-- Consume a literal, or fail. -/
def chompLit (lit : List Char) (s : List Char) : Option (List Char) :=
  if charsStartWith lit s then some (s.drop lit.length) else none

/-- `^\d+\s*<unit>(s)?$` and, with `ago = true`, `^\d+\s*<unit>(s)?\s*ago$`
(the English relative-time patterns; `\s` modelled by `pyIsSpace`). -/
def numUnitEn (unit : List Char) (ago : Bool) (s : List Char) : Bool :=
  allDigits1 (s.takeWhile Char.isDigit) &&
    match chompLit unit ((s.dropWhile Char.isDigit).dropWhile pyIsSpace) with
    | none => false
    | some r2 =>
      let r3 := match r2 with | 's' :: t => t | _ => r2
      if ago then
        match chompLit "ago".data (r3.dropWhile pyIsSpace) with
        | some r4 => r4.isEmpty
        | none => false
      else r3.isEmpty

/-- The `ui_texts` list (`scraper.py` lines 805-810). -/
def ui_texts : List String :=
  ["いいね", "返信", "再投稿", "シェア", "フォロー", "フォローする", "もっと見る",
   "Like", "Reply", "Repost", "Share", "Follow", "More",
   "分", "時間", "秒", "日", "分前", "時間前", "秒前", "日前",
   "min", "hour", "sec", "day", "ago"]

/-- The `time_patterns` loop (`scraper.py` lines 826-835). -/
def time_patterns_match (s : List Char) : Bool :=
  numThen "分".data s || numThen "時間".data s || numThen "日".data s ||
  numThen "秒".data s ||
  numThen "分前".data s || numThen "時間前".data s || numThen "日前".data s ||
  numThen "秒前".data s ||
  numUnitEn "min".data false s || numUnitEn "hour".data false s ||
  numUnitEn "day".data false s || numUnitEn "sec".data false s ||
  numUnitEn "min".data true s || numUnitEn "hour".data true s ||
  numUnitEn "day".data true s || numUnitEn "sec".data true s

/-- `ThreadsScraper._is_ui_element_text(text)` (`scraper.py` lines 794-837):
any text shorter than 5 code points is UI chrome; then pure-number /
number-with-K tests, the `ui_texts` substring scan, and the relative-time
patterns. -/
def is_ui_element_text (text : String) : Bool :=
  if text.length < 5 then true
  else
    let s := stripDollarNewline text.data
    if reDigitsCommas s || reNumK s then true
    else if ui_texts.any (fun u => pyIn u text) then true
    else time_patterns_match s

/-! ### `ThreadsScraper.extract_posts_from_search` (`scraper.py` lines 1352-1477)

The DOM is abstracted into one record per post container holding what the
selector chains would extract: the cleaned username (lines 1393-1424), the
post text from `_extract_post_text` (line 1427), the text of the like-count
element consumed by `_extract_likes` (`none` when absent), and the
`_has_images` verdict. -/

/-- One search-result post container, as seen through the field extractors. -/
structure SContainer where
  username : String
  postText : String
  likeText : Option String
  hasImages : Bool
deriving DecidableEq, Repr

/-- A record appended by `extract_posts_from_search`:
`(username, post_text, likes, target)` (line 1450). -/
structure SRec where
  username : String
  postText : String
  likes : Int
  target : Option String
deriving DecidableEq, Repr

/-- `container_id = f"{username}:{post_text[:30]}"` (line 1432). -/
def search_container_id (c : SContainer) : String :=
  c.username ++ ":" ++ pyTake 30 c.postText

/-- The dedup key of a returned search record, same derivation as
`search_container_id`. -/
def srec_key (r : SRec) : String :=
  r.username ++ ":" ++ pyTake 30 r.postText

/-- The per-container loop of `extract_posts_from_search` (lines 1387-1469):
skip ids already in `local_post_ids`; skip image posts when
`exclude_image_posts` and not `debug_mode`; parse likes and keep the post only
when `likes >= min_likes`, recording its id; stop once `len(posts) >=
max_posts` (checked after appending). -/
def search_loop (excl dbg : Bool) (minLikes : Int) (maxPosts : Nat)
    (target : Option String) :
    List SContainer → List SRec → List String → List SRec
  | [], posts, _ => posts
  | c :: rest, posts, ids =>
    let cid := search_container_id c
    if cid ∈ ids then search_loop excl dbg minLikes maxPosts target rest posts ids
    else if !excl || !c.hasImages || dbg then
      let likes := extract_likes c.likeText
      if minLikes ≤ likes then
        let posts' := posts ++ [⟨c.username, c.postText, likes, target⟩]
        let ids' := ids ++ [cid]
        if maxPosts ≤ posts'.length then posts'
        else search_loop excl dbg minLikes maxPosts target rest posts' ids'
      else search_loop excl dbg minLikes maxPosts target rest posts ids
    else search_loop excl dbg minLikes maxPosts target rest posts ids

/-- `extract_posts_from_search(keyword, max_posts, exclude_image_posts,
min_likes, target, debug_mode)`: `posts = []`, `local_post_ids = set()` are
created once per call (lines 1367-1368), then the container loop runs. -/
def extract_posts_from_search (excl dbg : Bool) (minLikes : Int) (maxPosts : Nat)
    (target : Option String) (containers : List SContainer) : List SRec :=
  search_loop excl dbg minLikes maxPosts target containers [] []

/-! ### `ThreadsScraper.extract_posts` (`scraper.py` lines 939-1215)

One extraction run examines a stream of containers (across scroll rounds the
accumulator `posts` persists; the stream below is the concatenation of the
containers of all rounds).  The DOM again appears as a record per container:
the raw `container.text` and `str(container.location)` feeding the
container-id hash, the image-detection verdict, and the winning candidates of
the username/text selector chains (`none` when every selector fails; the
chains only accept nonempty candidates).  The likes value is the result of
the likes selector loop (lines 1129-1154). -/

/-- One timeline post container. -/
structure TContainer where
  text : String
  location : String
  hasImage : Bool
  username : Option String
  postText : Option String
  likes : Int
deriving DecidableEq, Repr

/-- A record appended by `extract_posts`: `(username, post_text, likes)`
(line 1173). -/
structure TRec where
  username : String
  postText : String
  likes : Int
deriving DecidableEq, Repr

/-- `container_id = hash(container.text[:50] + str(container.location))`
(line 1053); Python's `hash` is deterministic within a process and modelled by
the hashed string itself. -/
def timeline_container_id (c : TContainer) : String :=
  pyTake 50 c.text ++ c.location

/-- The per-container loop of `extract_posts` (lines 1049-1175).  Note line
1059: `post_ids = set()` is executed INSIDE the loop, so the id-based seen
check on line 1060 consults a freshly empty set for every container and never
skips anything; the only effective deduplication is the linear scan over the
accumulated `posts` (lines 1161-1170), which rejects a candidate whose
username matches an existing record together with either its 50-character
text prefix or its full text. -/
def timeline_loop (excl : Bool) : List TContainer → List TRec → List TRec
  | [], posts => posts
  | c :: rest, posts =>
    let post_ids : List String := []
    if timeline_container_id c ∈ post_ids then timeline_loop excl rest posts
    else if excl && c.hasImage then timeline_loop excl rest posts
    else
      match c.username, c.postText with
      | some u, some t =>
        if u ≠ t then
          if posts.any (fun r =>
              r.username = u &&
                (pyTake 50 r.postText = pyTake 50 t || r.postText = t)) then
            timeline_loop excl rest posts
          else timeline_loop excl rest (posts ++ [⟨u, t, c.likes⟩])
        else timeline_loop excl rest posts
      | _, _ => timeline_loop excl rest posts

/-- `extract_posts(max_posts, exclude_image_posts)`: `posts = []` once per
call, then the container loop. -/
def extract_posts (excl : Bool) (containers : List TContainer) : List TRec :=
  timeline_loop excl containers []

/-- Number of containers that survive the id-based seen check of
`extract_posts` as written (line 1059-1061: the set is rebuilt empty for each
container, so every container survives). -/
def timeline_id_survivors : List TContainer → Nat
  | [] => 0
  | c :: rest =>
    let post_ids : List String := []
    (if timeline_container_id c ∈ post_ids then 0 else 1) +
      timeline_id_survivors rest

/-- Modelled from the spec: §3/§8 require "the seen-set … constructed once per
extraction call, not per container" (and §9 flags the per-container
construction as a latent defect).  This is the id-based seen check with the
set carried across containers, counting the containers that survive it. -/
def timeline_id_survivors_spec : List String → List TContainer → Nat
  | _, [] => 0
  | seen, c :: rest =>
    let cid := timeline_container_id c
    if cid ∈ seen then timeline_id_survivors_spec seen rest
    else 1 + timeline_id_survivors_spec (seen ++ [cid]) rest

/-! ### Auxiliary definitions used by the theorems -/

/-- The branch conditions under which `_extract_likes` fails to parse its
input text: a `K`/`k` text whose remainder `float()` rejects, a `万` text
whose remainder `float()` rejects, or a plain text containing no digit. -/
def like_parse_fails (t0 : String) : Bool :=
  if (pyStrip t0.data).contains 'K' || (pyStrip t0.data).contains 'k' then
    (pyFloat (pyRemoveChar 'k' (pyRemoveChar 'K' (pyStrip t0.data)))).isNone
  else if (pyStrip t0.data).contains '万' then
    (pyFloat (pyRemoveChar '万' (pyStrip t0.data))).isNone
  else
    ((pyStrip t0.data).filter Char.isDigit).isEmpty

/-- A gateway on which every call succeeds with nonempty content — the
"every pipeline stage call succeeds" environment. -/
def gw_all_ok (gw : Gateway) : Prop :=
  ∀ req, ∃ content, gw req = .ok content ∧ content ≠ ""

/-- A concrete always-succeeding gateway. -/
def gw_ok_const : Gateway := fun _ => .ok "generated"

/-- A concrete gateway that raises exactly on the Analyze call for the post
text `"t2"` and succeeds on every other call. -/
def gw_fail_post2 : Gateway := fun req =>
  if req.messages = user_message (ANALYTICS_PROMPT_format "t2") then .error "timeout"
  else .ok "generated"

/-- A gateway that always raises. -/
def gw_err : Gateway := fun _ => .error "transport error"

/-- A concrete gateway that raises exactly on the Generate call for target
`"B"` (with the template produced by the other calls) and succeeds
elsewhere. -/
def gw_fail_targetB : Gateway := fun req =>
  if req.messages = user_message (FINAL_POST_PROMPT_format "generated" "B") then
    .error "timeout"
  else .ok "generated"

/-- The keys of a per-account dictionary, in order. -/
def dict_keys {α : Type} (d : List (String × List α)) : List String :=
  d.map Prod.fst

/-- The dedup identity of a timeline record: author plus the leading 50
characters of the text — the pair the duplicate scan of `extract_posts`
compares (its full-text alternative implies equality of this pair). -/
def trec_key (r : TRec) : String × String :=
  (r.username, pyTake 50 r.postText)

/-- Closed form of `assign_chunks` when all usernames are fresh: account `i`
(counting from the start index) is bound to `(shuffled.drop (i*ppa)).take ppa`. -/
def chunk_list {α : Type} (shuffled : List α) (ppa : Nat) :
    Nat → List String → List (String × List α)
  | _, [] => []
  | i, u :: rest =>
    (u, (shuffled.drop (i * ppa)).take ppa) :: chunk_list shuffled ppa (i + 1) rest

/-! ## Theorems -/

/-- Claim C10: every string shorter than 5 code points is classified as UI
chrome by `_is_ui_element_text`, unconditionally — the length test is the
first check and returns `True` regardless of content, so such candidate texts
are discarded. -/
theorem C10_short_text_is_ui_chrome (s : String) (h : s.length < 5) :
    is_ui_element_text s = true := by
  simp [is_ui_element_text, h]

/-- Witness for C10 at the concrete three-character input `"hi!"`. -/
theorem C10_short_text_is_ui_chrome_witness :
    ("hi!" : String).length < 5 ∧ is_ui_element_text "hi!" = true :=
  ⟨by decide, C10_short_text_is_ui_chrome "hi!" (by decide)⟩

/-- Claim C8: the like-count parser maps `"1.2K"` to 1200 and accepts
thousands separators (`"1,234"` to 1234); a missing like-count element and
every text on which parsing fails yield 0. -/
theorem C8_like_count_parsing :
    extract_likes (some "1.2K") = 1200 ∧
    extract_likes (some "1,234") = 1234 ∧
    extract_likes none = 0 ∧
    (∀ t0 : String, like_parse_fails t0 = true → extract_likes (some t0) = 0) := by
  refine ⟨by decide, by decide, rfl, ?_⟩
  intro t0 h
  simp only [like_parse_fails] at h
  simp only [extract_likes]
  by_cases hK : (pyStrip t0.data).contains 'K' || (pyStrip t0.data).contains 'k'
  · rw [if_pos hK] at h ⊢
    cases hp : pyFloat (pyRemoveChar 'k' (pyRemoveChar 'K' (pyStrip t0.data))) with
    | none => rfl
    | some d => rw [hp] at h; simp at h
  · rw [if_neg hK] at h ⊢
    by_cases hM : (pyStrip t0.data).contains '万'
    · rw [if_pos hM] at h ⊢
      cases hp : pyFloat (pyRemoveChar '万' (pyStrip t0.data)) with
      | none => rfl
      | some d => rw [hp] at h; simp at h
    · rw [if_neg hM] at h ⊢
      rw [if_pos h]

/-- Witness for C8's universal clause at the unparsable text `"abc"`. -/
theorem C8_like_count_parsing_witness :
    like_parse_fails "abc" = true ∧ extract_likes (some "abc") = 0 :=
  ⟨by decide, C8_like_count_parsing.2.2.2 "abc" (by decide)⟩

/-- Claim C2: model-parameter dispatch is a total function of the identifier
string; when the identifier contains a marker of the new-generation
allow-list the built request carries no temperature and uses
`max_completion_tokens`; otherwise it always carries `temperature = 0.7`
(nonzero) and uses `max_tokens`. -/
theorem C2_model_dispatch (m : String) (messages : List ChatMessage) :
    (is_new_gen new_gen_models m = true →
      (build_request new_gen_models m messages).temperature = none ∧
      (build_request new_gen_models m messages).max_completion_tokens = some 4000 ∧
      (build_request new_gen_models m messages).max_tokens = none) ∧
    (is_new_gen new_gen_models m = false →
      (build_request new_gen_models m messages).temperature = some (7 / 10) ∧
      (7 / 10 : ℚ) ≠ 0 ∧
      (build_request new_gen_models m messages).max_tokens = some 4000 ∧
      (build_request new_gen_models m messages).max_completion_tokens = none) := by
  constructor
  · intro h
    simp [build_request, h]
  · intro h
    refine ⟨by simp [build_request, h], by norm_num, by simp [build_request, h],
      by simp [build_request, h]⟩

/-- Witness for C2 at the new-generation identifier `"o1"` and the legacy
identifier `"gpt-3.5-turbo"`. -/
theorem C2_model_dispatch_witness :
    (build_request new_gen_models "o1" []).temperature = none ∧
    (build_request new_gen_models "gpt-3.5-turbo" []).temperature = some (7 / 10) :=
  ⟨((C2_model_dispatch "o1" []).1 (by decide)).1,
   ((C2_model_dispatch "gpt-3.5-turbo" []).2 (by decide)).1⟩

/-- Claim C9, counterexample: for a concrete per-account batch file name, the
writer's file-operation trace is a single direct write to the final name and
is not of the write-temporary-then-rename shape the claim requires. -/
theorem C9_counterexample :
    account_file_ops "data/output-post/threads_posts_acc1_2026-02-03_101500.csv" =
      [FileOp.write "data/output-post/threads_posts_acc1_2026-02-03_101500.csv"] ∧
    ¬∃ tmp, tmp ≠ "data/output-post/threads_posts_acc1_2026-02-03_101500.csv" ∧
      account_file_ops "data/output-post/threads_posts_acc1_2026-02-03_101500.csv" =
        [FileOp.write tmp,
         FileOp.rename tmp "data/output-post/threads_posts_acc1_2026-02-03_101500.csv"] := by
  refine ⟨rfl, ?_⟩
  rintro ⟨tmp, _, h⟩
  simp [account_file_ops] at h

/-- Claim C9, amended: each account batch is written by one direct
`df.to_csv` call to its final per-account filename; no temporary file and no
finalize/rename step exist in the writer. -/
theorem C9_amended_direct_write (f : String) :
    account_file_ops f = [FileOp.write f] := rfl

/-- The `k`-th row built for an account is scheduled at
`now + 15 * (hc + k)` minutes, where `hc` is the starting counter value. -/
lemma account_rows_get_scheduledTime (u rc ri : String) (now : Nat) :
    ∀ (ps : List (String × String × String)) (hc k : Nat)
      (h : k < (account_rows u rc ri now hc ps).length),
      ((account_rows u rc ri now hc ps).get ⟨k, h⟩).scheduledTime = now + 15 * (hc + k) := by
  intro ps
  induction ps with
  | nil => intro hc k h; simp [account_rows] at h
  | cons p rest ih =>
    intro hc k h
    obtain ⟨r, t, c⟩ := p
    cases k with
    | zero => simp [account_rows]
    | succ k' =>
      have h' : k' < (account_rows u rc ri now (hc + 1) rest).length := by
        simpa [account_rows] using h
      have := ih (hc + 1) k' h'
      simp only [account_rows, List.get] at *
      rw [this]
      omega

/-- Claim C7: within one account's chunk the scheduler assigns the `k`-th
post the timestamp `now + 15 * k` minutes, so timestamps start at the current
time, advance by a fixed 15-minute step, and are strictly increasing — no two
scheduled posts of the account share a timestamp. -/
theorem C7_schedule_strictly_increasing (u rc ri : String) (now : Nat)
    (account_posts : List (String × String × String)) :
    (∀ (k : Nat) (h : k < (account_rows u rc ri now 0 account_posts).length),
      ((account_rows u rc ri now 0 account_posts).get ⟨k, h⟩).scheduledTime = now + 15 * k) ∧
    (∀ (i j : Nat) (hi : i < (account_rows u rc ri now 0 account_posts).length)
      (hj : j < (account_rows u rc ri now 0 account_posts).length), i < j →
      ((account_rows u rc ri now 0 account_posts).get ⟨i, hi⟩).scheduledTime <
        ((account_rows u rc ri now 0 account_posts).get ⟨j, hj⟩).scheduledTime) := by
  constructor
  · intro k h
    simpa using account_rows_get_scheduledTime u rc ri now account_posts 0 k h
  · intro i j hi hj hij
    rw [account_rows_get_scheduledTime u rc ri now account_posts 0 i hi,
      account_rows_get_scheduledTime u rc ri now account_posts 0 j hj]
    omega

/-- Witness for C7 on a concrete two-post chunk starting at minute 100. -/
theorem C7_schedule_strictly_increasing_witness :
    ((account_rows "u" "rc" "ri" 100 0 [("r", "T", "c1"), ("r", "T", "c2")]).get
        ⟨0, by decide⟩).scheduledTime = 100 + 15 * 0 ∧
    ((account_rows "u" "rc" "ri" 100 0 [("r", "T", "c1"), ("r", "T", "c2")]).get
        ⟨0, by decide⟩).scheduledTime <
      ((account_rows "u" "rc" "ri" 100 0 [("r", "T", "c1"), ("r", "T", "c2")]).get
        ⟨1, by decide⟩).scheduledTime :=
  ⟨(C7_schedule_strictly_increasing "u" "rc" "ri" 100 [("r", "T", "c1"), ("r", "T", "c2")]).1
      0 (by decide),
   (C7_schedule_strictly_increasing "u" "rc" "ri" 100 [("r", "T", "c1"), ("r", "T", "c2")]).2
      0 1 (by decide) (by decide) (by decide)⟩

/-- Invariant of the search-extraction loop: if every accumulated record
meets the like threshold, so does every record of the final result. -/
lemma search_loop_minLikes (excl dbg : Bool) (minLikes : Int) (maxPosts : Nat)
    (target : Option String) :
    ∀ (cs : List SContainer) (posts : List SRec) (ids : List String),
      (∀ r ∈ posts, minLikes ≤ r.likes) →
      ∀ r ∈ search_loop excl dbg minLikes maxPosts target cs posts ids,
        minLikes ≤ r.likes := by
  intro cs
  induction cs with
  | nil =>
    intro posts ids hinv r hr
    simp only [search_loop] at hr
    exact hinv r hr
  | cons c rest ih =>
    intro posts ids hinv r hr
    simp only [search_loop] at hr
    split at hr
    · exact ih posts ids hinv r hr
    · split at hr
      · split at hr
        · rename_i hmin
          split at hr
          · rcases List.mem_append.mp hr with hmem | hmem
            · exact hinv r hmem
            · simp only [List.mem_singleton] at hmem
              subst hmem
              exact hmin
          · refine ih _ _ ?_ r hr
            intro s hs
            rcases List.mem_append.mp hs with hmem | hmem
            · exact hinv s hmem
            · simp only [List.mem_singleton] at hmem
              subst hmem
              exact hmin
        · exact ih posts ids hinv r hr
      · exact ih posts ids hinv r hr

/-- Claim C5: every record returned by a search-extraction run meets the
configured minimum like count, and on a page yielding posts with like counts
10, 600 and 1200 under `min_likes = 500` the run returns exactly 2 records. -/
theorem C5_min_likes_filter :
    (∀ (excl dbg : Bool) (minLikes : Int) (maxPosts : Nat) (target : Option String)
       (containers : List SContainer) (r : SRec),
       r ∈ extract_posts_from_search excl dbg minLikes maxPosts target containers →
       minLikes ≤ r.likes) ∧
    (extract_posts_from_search true false 500 100 (some "T")
       [⟨"u1", "post text one", some "10", false⟩,
        ⟨"u2", "post text two", some "600", false⟩,
        ⟨"u3", "post text three", some "1200", false⟩]).length = 2 := by
  constructor
  · intro excl dbg minLikes maxPosts target containers r hr
    simp only [extract_posts_from_search] at hr
    exact search_loop_minLikes excl dbg minLikes maxPosts target containers [] []
      (by intro s hs; exact absurd hs (List.not_mem_nil s)) r hr
  · decide

/-- Witness for C5's universal clause on the concrete three-container page. -/
theorem C5_min_likes_filter_witness :
    (500 : Int) ≤ (SRec.mk "u2" "post text two" 600 (some "T")).likes :=
  C5_min_likes_filter.1 true false 500 100 (some "T")
    [⟨"u1", "post text one", some "10", false⟩,
     ⟨"u2", "post text two", some "600", false⟩,
     ⟨"u3", "post text three", some "1200", false⟩]
    ⟨"u2", "post text two", 600, some "T"⟩ (by decide)

/-- Invariant of the search-extraction loop: accumulated records have
pairwise-distinct dedup keys and every accumulated key is recorded in
`local_post_ids`; both are preserved to the final result. -/
lemma search_loop_key_unique (excl dbg : Bool) (minLikes : Int) (maxPosts : Nat)
    (target : Option String) :
    ∀ (cs : List SContainer) (posts : List SRec) (ids : List String),
      posts.Pairwise (fun a b => srec_key a ≠ srec_key b) →
      (∀ r ∈ posts, srec_key r ∈ ids) →
      (search_loop excl dbg minLikes maxPosts target cs posts ids).Pairwise
        (fun a b => srec_key a ≠ srec_key b) := by
  intro cs
  induction cs with
  | nil =>
    intro posts ids h1 _
    simpa only [search_loop] using h1
  | cons c rest ih =>
    intro posts ids h1 h2
    simp only [search_loop]
    split
    · exact ih posts ids h1 h2
    · rename_i hnotin
      split
      · split
        · have h1' : (posts ++
              [SRec.mk c.username c.postText (extract_likes c.likeText) target]).Pairwise
              (fun a b => srec_key a ≠ srec_key b) := by
            rw [List.pairwise_append]
            refine ⟨h1, List.pairwise_singleton _ _, ?_⟩
            intro a ha b hb
            simp only [List.mem_singleton] at hb
            subst hb
            intro hEq
            have hkey : srec_key (SRec.mk c.username c.postText
                (extract_likes c.likeText) target) = search_container_id c := rfl
            apply hnotin
            rw [← hkey, ← hEq]
            exact h2 a ha
          have h2' : ∀ r ∈ posts ++
              [SRec.mk c.username c.postText (extract_likes c.likeText) target],
              srec_key r ∈ ids ++ [search_container_id c] := by
            intro r hrm
            rcases List.mem_append.mp hrm with hmem | hmem
            · exact List.mem_append_left _ (h2 r hmem)
            · simp only [List.mem_singleton] at hmem
              subst hmem
              exact List.mem_append_right _ (List.mem_singleton_self _)
          split
          · exact h1'
          · exact ih _ _ h1' h2'
        · exact ih posts ids h1 h2
      · exact ih posts ids h1 h2

/-- Invariant of the timeline-extraction loop: pairwise-distinct
author/leading-text identities are preserved by the linear duplicate scan. -/
lemma timeline_loop_key_unique (excl : Bool) :
    ∀ (cs : List TContainer) (posts : List TRec),
      posts.Pairwise (fun a b => trec_key a ≠ trec_key b) →
      (timeline_loop excl cs posts).Pairwise (fun a b => trec_key a ≠ trec_key b) := by
  intro cs
  induction cs with
  | nil =>
    intro posts h
    simpa only [timeline_loop] using h
  | cons c rest ih =>
    intro posts h
    obtain ⟨ctext, cloc, cimg, cuser, cbody, clikes⟩ := c
    simp only [timeline_loop]
    split
    · exact ih posts h
    · split
      · exact ih posts h
      · cases cuser with
        | none => exact ih posts h
        | some u =>
          cases cbody with
          | none => exact ih posts h
          | some t =>
            simp only
            split
            · split
              · exact ih posts h
              · rename_i hne hdup
                refine ih _ ?_
                rw [List.pairwise_append]
                refine ⟨h, List.pairwise_singleton _ _, ?_⟩
                intro a ha b hb
                simp only [List.mem_singleton] at hb
                subst hb
                intro hEq
                apply hdup
                rw [List.any_eq_true]
                refine ⟨a, ha, ?_⟩
                have h1 : a.username = u := congrArg Prod.fst hEq
                have h2 : pyTake 50 a.postText = pyTake 50 t := congrArg Prod.snd hEq
                simp [h1, h2]
            · exact ih posts h

/-- Claim C1 (the part that holds, plus the exhibit of the defect): both
extraction runs return records with pairwise-distinct dedup keys; but in
`extract_posts` the id-based seen-set is rebuilt per container (so it never
skips anything — both copies of an identical container survive that check),
whereas the spec-mandated once-per-call seen-set would let only one through.
Uniqueness in `extract_posts` is instead enforced by the linear duplicate
scan over the accumulated records. -/
theorem C1_dedup_key_uniqueness :
    (∀ (excl : Bool) (cs : List TContainer),
       (extract_posts excl cs).Pairwise (fun a b => trec_key a ≠ trec_key b)) ∧
    (∀ (excl dbg : Bool) (minLikes : Int) (maxPosts : Nat) (target : Option String)
       (cs : List SContainer),
       (extract_posts_from_search excl dbg minLikes maxPosts target cs).Pairwise
         (fun a b => srec_key a ≠ srec_key b)) ∧
    (timeline_id_survivors
        [⟨"same text", "loc", false, some "u", some "body text", 5⟩,
         ⟨"same text", "loc", false, some "u", some "body text", 5⟩] = 2 ∧
     timeline_id_survivors_spec []
        [⟨"same text", "loc", false, some "u", some "body text", 5⟩,
         ⟨"same text", "loc", false, some "u", some "body text", 5⟩] = 1) := by
  refine ⟨?_, ?_, by decide, by decide⟩
  · intro excl cs
    exact timeline_loop_key_unique excl cs [] List.Pairwise.nil
  · intro excl dbg minLikes maxPosts target cs
    exact search_loop_key_unique excl dbg minLikes maxPosts target cs [] []
      List.Pairwise.nil (by intro r hr; exact absurd hr (List.not_mem_nil r))

/-- On an all-succeeding gateway, `call_openai_api` returns a nonempty
content. -/
lemma call_openai_api_ok (gw : Gateway) (h : gw_all_ok gw)
    (messages : List ChatMessage) (custom : Option String) :
    ∃ content, call_openai_api gw messages custom = some content ∧ content ≠ "" := by
  obtain ⟨c, hc, hne⟩ := h (build_request new_gen_models (resolve_model custom) messages)
  exact ⟨c, by simp [call_openai_api, hc], hne⟩

/-- The per-target fan-out fold appends exactly one result per target when
every generated post is truthy. -/
lemma fanout_foldl_length (f : String → Option String) (u : String)
    (hall : ∀ t, truthy (f t) = true) :
    ∀ (targets : List String) (init : List (String × String × String)),
      (targets.foldl (fun results target =>
        if truthy (f target) then results ++ [(u, target, (f target).getD "")]
        else results) init).length = init.length + targets.length := by
  intro targets
  induction targets with
  | nil => intro init; simp
  | cons t rest ih =>
    intro init
    rw [List.foldl_cons, if_pos (hall t), ih]
    simp only [List.length_append, List.length_cons, List.length_nil]
    omega

/-- On an all-succeeding gateway, each post contributes one result per
target. -/
lemma process_post_length (gw : Gateway) (h : gw_all_ok gw)
    (targets : List String) (post : String × String × Nat) :
    (process_post gw targets post).length = targets.length := by
  simp only [process_post, analyze_post, create_template]
  obtain ⟨a, ha, hane⟩ :=
    call_openai_api_ok gw h (user_message (ANALYTICS_PROMPT_format post.2.1)) none
  rw [ha, if_pos (by simp [truthy, hane])]
  simp only [Option.getD_some]
  obtain ⟨b, hb, hbne⟩ :=
    call_openai_api_ok gw h (user_message (TEMPLATE_PROMPT_format a post.2.1)) none
  rw [hb, if_pos (by simp [truthy, hbne])]
  simp only [Option.getD_some]
  have hall : ∀ t, truthy (generate_final_post gw b t) = true := by
    intro t
    obtain ⟨c, hc, hcne⟩ :=
      call_openai_api_ok gw h (user_message (FINAL_POST_PROMPT_format b t)) none
    simp [generate_final_post, hc, truthy, hcne]
  simpa using fanout_foldl_length (fun t => generate_final_post gw b t) post.1 hall targets []

/-- On an all-succeeding gateway, the batch fold accumulates
`posts.length * targets.length` results. -/
lemma process_posts_foldl_length (gw : Gateway) (h : gw_all_ok gw)
    (targets : List String) :
    ∀ (posts : List (String × String × Nat)) (init : List (String × String × String)),
      (posts.foldl (fun final_posts post => final_posts ++ process_post gw targets post)
        init).length = init.length + posts.length * targets.length := by
  intro posts
  induction posts with
  | nil => intro init; simp
  | cons p rest ih =>
    intro init
    rw [List.foldl_cons, ih]
    simp only [List.length_append, List.length_cons, process_post_length gw h targets p,
      Nat.succ_mul]
    omega

/-- Claim C6: when every pipeline stage call succeeds, `process_posts`
produces one result per post×target pair; with 3 posts and 2 targets that is
exactly 6 results, and grouping them by target yields exactly 2 target
batches of 3 results each. -/
theorem C6_full_fanout_count :
    (∀ (gw : Gateway) (posts : List (String × String × Nat)) (targets : List String),
       gw_all_ok gw →
       (process_posts gw posts targets).length = posts.length * targets.length) ∧
    (process_posts gw_ok_const [("u1", "t1", 0), ("u2", "t2", 0), ("u3", "t3", 0)]
        ["A", "B"]).length = 6 ∧
    group_by_target (process_posts gw_ok_const
        [("u1", "t1", 0), ("u2", "t2", 0), ("u3", "t3", 0)] ["A", "B"]) =
      [("A", [("u1", "A", "generated"), ("u2", "A", "generated"),
              ("u3", "A", "generated")]),
       ("B", [("u1", "B", "generated"), ("u2", "B", "generated"),
              ("u3", "B", "generated")])] ∧
    (group_by_target (process_posts gw_ok_const
        [("u1", "t1", 0), ("u2", "t2", 0), ("u3", "t3", 0)] ["A", "B"])).length = 2 := by
  refine ⟨?_, by rfl, by rfl, by rfl⟩
  intro gw posts targets h
  simpa using process_posts_foldl_length gw h targets posts []

/-- Witness for C6's universal clause on the concrete all-succeeding
gateway. -/
theorem C6_full_fanout_count_witness :
    (process_posts gw_ok_const [("u1", "t1", 0), ("u2", "t2", 0), ("u3", "t3", 0)]
        ["A", "B"]).length =
      ([("u1", "t1", 0), ("u2", "t2", 0), ("u3", "t3", 0)] :
        List (String × String × Nat)).length * (["A", "B"] : List String).length :=
  C6_full_fanout_count.1 gw_ok_const [("u1", "t1", 0), ("u2", "t2", 0), ("u3", "t3", 0)]
    ["A", "B"] (fun _ => ⟨"generated", rfl, by decide⟩)

set_option maxRecDepth 8192 in
/-- Claim C4: a gateway exception is converted to `None` at the call site
(`call_openai_api` never propagates it); a falsy Analyze result terminates
processing of that post with an empty result list; in the concrete run where
Analyze raises exactly for post #2 of 3 with 2 targets, the batch completes
with exactly the 4 results for posts #1 and #3 across both targets; and a
Generate failure for one target drops only that post×target pair. -/
theorem C4_stage_failure_isolation :
    (∀ (gw : Gateway) (messages : List ChatMessage) (custom : Option String)
       (err : String),
       gw (build_request new_gen_models (resolve_model custom) messages) = .error err →
       call_openai_api gw messages custom = none) ∧
    (∀ (gw : Gateway) (targets : List String) (post : String × String × Nat),
       truthy (analyze_post gw post.2.1) = false → process_post gw targets post = []) ∧
    process_posts gw_fail_post2 [("u1", "t1", 0), ("u2", "t2", 0), ("u3", "t3", 0)]
        ["A", "B"] =
      [("u1", "A", "generated"), ("u1", "B", "generated"),
       ("u3", "A", "generated"), ("u3", "B", "generated")] ∧
    process_posts gw_fail_targetB [("u1", "t1", 0), ("u2", "t2", 0)] ["A", "B"] =
      [("u1", "A", "generated"), ("u2", "A", "generated")] := by
  refine ⟨?_, ?_, by rfl, by rfl⟩
  · intro gw messages custom err herr
    simp [call_openai_api, herr]
  · intro gw targets post h
    simp [process_post, h]

/-- Witness for C4's hypothesis clauses on the always-raising gateway. -/
theorem C4_stage_failure_isolation_witness :
    call_openai_api gw_err [] none = none ∧
    process_post gw_err ["A"] ("u", "t", 0) = [] :=
  ⟨C4_stage_failure_isolation.1 gw_err [] none "transport error" rfl,
   C4_stage_failure_isolation.2.1 gw_err ["A"] ("u", "t", 0) rfl⟩

section PartitionLemmas

variable {α : Type}

/-- Assigning a fresh key appends a new entry. -/
lemma dict_set_fresh (u : String) (v : List α) :
    ∀ d : List (String × List α), u ∉ dict_keys d → dict_set u v d = d ++ [(u, v)] := by
  intro d
  induction d with
  | nil => intro _; rfl
  | cons e rest ih =>
    intro h
    obtain ⟨k, vs⟩ := e
    simp only [dict_keys, List.map_cons, List.mem_cons] at h
    push_neg at h
    simp only [dict_set]
    rw [if_neg (by exact fun hk => h.1 hk.symm), ih (by simpa [dict_keys] using h.2)]
    simp

/-- `dict_append` never changes the key sequence. -/
lemma dict_append_keys (k : String) (p : α) :
    ∀ d : List (String × List α), dict_keys (dict_append k p d) = dict_keys d := by
  intro d
  induction d with
  | nil => rfl
  | cons e rest ih =>
    obtain ⟨k', vs⟩ := e
    simp only [dict_append]
    by_cases hk : k' = k
    · rw [if_pos hk]; simp [dict_keys]
    · rw [if_neg hk]
      simp only [dict_keys, List.map_cons] at ih ⊢
      rw [ih]

/-- Appending under an existing key extends exactly that entry. -/
lemma dict_get_append_self (k : String) (p : α) :
    ∀ d : List (String × List α), k ∈ dict_keys d →
      dict_get k (dict_append k p d) = dict_get k d ++ [p] := by
  intro d
  induction d with
  | nil => intro h; simp [dict_keys] at h
  | cons e rest ih =>
    intro h
    obtain ⟨k', vs⟩ := e
    simp only [dict_append]
    by_cases hk : k' = k
    · rw [if_pos hk]
      simp only [dict_get, if_pos hk]
    · rw [if_neg hk]
      simp only [dict_get, if_neg hk]
      refine ih ?_
      simpa [dict_keys, Ne.symm hk] using h

/-- Appending under a different key leaves an entry unchanged. -/
lemma dict_get_append_other (u k : String) (p : α) (hne : u ≠ k) :
    ∀ d : List (String × List α), dict_get u (dict_append k p d) = dict_get u d := by
  intro d
  induction d with
  | nil => rfl
  | cons e rest ih =>
    obtain ⟨k', vs⟩ := e
    simp only [dict_append]
    by_cases hk : k' = k
    · rw [if_pos hk]
      simp only [dict_get]
      rw [if_neg (by rw [hk]; exact fun h => hne h.symm), if_neg (by rw [hk]; exact fun h => hne h.symm)]
    · rw [if_neg hk]
      simp only [dict_get]
      by_cases hu : k' = u
      · rw [if_pos hu, if_pos hu]
      · rw [if_neg hu, if_neg hu, ih]

/-- Appending under an existing key grows the total count by one. -/
lemma dict_total_append (k : String) (p : α) :
    ∀ d : List (String × List α), k ∈ dict_keys d →
      dict_total (dict_append k p d) = dict_total d + 1 := by
  intro d
  induction d with
  | nil => intro h; simp [dict_keys] at h
  | cons e rest ih =>
    intro h
    obtain ⟨k', vs⟩ := e
    simp only [dict_append]
    by_cases hk : k' = k
    · rw [if_pos hk]
      simp only [dict_total, List.map_cons, List.sum_cons, List.length_append]
      simp
      omega
    · rw [if_neg hk]
      simp only [dict_total, List.map_cons, List.sum_cons]
      have h' : k ∈ dict_keys rest := by
        simp only [dict_keys, List.map_cons, List.mem_cons] at h
        rcases h with h | h
        · exact absurd h.symm hk
        · simpa [dict_keys] using h
      have := ih h'
      simp only [dict_total] at this
      omega

/-- With pairwise-distinct fresh usernames, the slice-assignment loop is the
plain chunk list appended to the incoming dictionary. -/
lemma assign_chunks_eq (shuffled : List α) (ppa : Nat) :
    ∀ (us : List String) (i : Nat) (d : List (String × List α)),
      us.Nodup → (∀ u ∈ us, u ∉ dict_keys d) →
      assign_chunks shuffled ppa i us d = d ++ chunk_list shuffled ppa i us := by
  intro us
  induction us with
  | nil => intro i d _ _; simp [assign_chunks, chunk_list]
  | cons u rest ih =>
    intro i d hnd hfresh
    simp only [assign_chunks, chunk_list]
    rw [dict_set_fresh u _ d (hfresh u (List.mem_cons_self u rest))]
    rw [ih (i + 1) _ (List.Nodup.of_cons hnd) ?_]
    · simp
    · intro u' hu'
      simp only [dict_keys, List.map_append, List.mem_append]
      push_neg
      refine ⟨hfresh u' (List.mem_cons_of_mem u hu'), ?_⟩
      have hne : u' ≠ u := by
        intro hEq
        subst hEq
        exact (List.nodup_cons.mp hnd).1 hu'
      simp [hne]

/-- The key sequence of a chunk list is the username list itself. -/
lemma chunk_list_keys (shuffled : List α) (ppa : Nat) :
    ∀ (us : List String) (i : Nat), dict_keys (chunk_list shuffled ppa i us) = us := by
  intro us
  induction us with
  | nil => intro i; rfl
  | cons u rest ih =>
    intro i
    simp only [chunk_list, dict_keys, List.map_cons]
    rw [show List.map Prod.fst (chunk_list shuffled ppa (i + 1) rest) =
      dict_keys (chunk_list shuffled ppa (i + 1) rest) from rfl, ih]

/-- Looking up the `k`-th username of a nodup chunk list returns its slice. -/
lemma chunk_list_get (shuffled : List α) (ppa : Nat) :
    ∀ (us : List String), us.Nodup →
      ∀ (i0 k : Nat) (h : k < us.length),
        dict_get (us.get ⟨k, h⟩) (chunk_list shuffled ppa i0 us) =
          (shuffled.drop ((i0 + k) * ppa)).take ppa := by
  intro us
  induction us with
  | nil => intro _ i0 k h; simp at h
  | cons u rest ih =>
    intro hnd i0 k h
    cases k with
    | zero =>
      simp [List.get, chunk_list, dict_get]
    | succ k' =>
      have hk' : k' < rest.length := Nat.lt_of_succ_lt_succ h
      have hne : u ≠ rest.get ⟨k', hk'⟩ := by
        intro hEq
        exact (List.nodup_cons.mp hnd).1 (hEq ▸ List.get_mem rest k' hk')
      simp only [List.get, chunk_list, dict_get]
      rw [if_neg (fun hEq => hne hEq)]
      rw [show ∀ hh : k' < rest.length, dict_get (rest.get ⟨k', hh⟩)
          (chunk_list shuffled ppa (i0 + 1) rest) =
          (shuffled.drop ((i0 + 1 + k') * ppa)).take ppa from
        fun hh => ih (List.Nodup.of_cons hnd) (i0 + 1) k' hh]
      rw [show i0 + 1 + k' = i0 + (k' + 1) from by omega]

/-- Total size of a chunk list: the slices telescope to
`min (us.length * ppa) (shuffled.length - i * ppa)`. -/
lemma chunk_list_total (shuffled : List α) (ppa : Nat) :
    ∀ (us : List String) (i : Nat),
      dict_total (chunk_list shuffled ppa i us) =
        min (us.length * ppa) (shuffled.length - i * ppa) := by
  intro us
  induction us with
  | nil => intro i; simp [chunk_list, dict_total]
  | cons u rest ih =>
    intro i
    simp only [chunk_list, dict_total, List.map_cons, List.sum_cons]
    rw [show ((chunk_list shuffled ppa (i + 1) rest).map (fun e => e.2.length)).sum =
      dict_total (chunk_list shuffled ppa (i + 1) rest) from rfl, ih (i + 1)]
    rw [List.length_take, List.length_drop]
    have e1 : (i + 1) * ppa = i * ppa + ppa := by ring
    have e2 : (rest.length + 1) * ppa = rest.length * ppa + ppa := by ring
    rw [List.length_cons, e1, e2]
    omega

/-- The remainder-distribution fold never changes the key sequence. -/
lemma remainder_fold_keys :
    ∀ (pairs : List (α × String)) (d : List (String × List α)),
      dict_keys (pairs.foldl (fun d pu => dict_append pu.2 pu.1 d) d) = dict_keys d := by
  intro pairs
  induction pairs with
  | nil => intro d; rfl
  | cons pu rest ih =>
    intro d
    rw [List.foldl_cons, ih, dict_append_keys]

/-- When every draw names an existing key, the remainder-distribution fold
adds exactly one post per pair to the dictionary total. -/
lemma remainder_fold_total :
    ∀ (pairs : List (α × String)) (d : List (String × List α)),
      (∀ pu ∈ pairs, pu.2 ∈ dict_keys d) →
      dict_total (pairs.foldl (fun d pu => dict_append pu.2 pu.1 d) d) =
        dict_total d + pairs.length := by
  intro pairs
  induction pairs with
  | nil => intro d _; simp
  | cons pu rest ih =>
    intro d hmem
    rw [List.foldl_cons, ih _ ?_, dict_total_append pu.2 pu.1 d
      (hmem pu (List.mem_cons_self pu rest))]
    · simp only [List.length_cons]
      omega
    · intro pu' hpu'
      rw [dict_append_keys]
      exact hmem pu' (List.mem_cons_of_mem pu hpu')

/-- Per-key effect of the remainder-distribution fold: each entry grows by
the number of pairs drawn for it. -/
lemma remainder_fold_get :
    ∀ (pairs : List (α × String)) (d : List (String × List α)) (u : String),
      (∀ pu ∈ pairs, pu.2 ∈ dict_keys d) →
      (dict_get u (pairs.foldl (fun d pu => dict_append pu.2 pu.1 d) d)).length =
        (dict_get u d).length + (pairs.filter (fun pu => pu.2 = u)).length := by
  intro pairs
  induction pairs with
  | nil => intro d u _; simp
  | cons pu rest ih =>
    intro d u hmem
    rw [List.foldl_cons, ih _ u ?_]
    · rw [List.filter_cons]
      by_cases hu : pu.2 = u
      · rw [if_pos (by simp [hu])]
        rw [show dict_get u (dict_append pu.2 pu.1 d) = dict_get u d ++ [pu.1] from by
          rw [← hu]
          exact dict_get_append_self pu.2 pu.1 d (hmem pu (List.mem_cons_self pu rest))]
        simp only [List.length_append, List.length_cons, List.length_nil]
        omega
      · rw [if_neg (by simp [hu])]
        rw [dict_get_append_other u pu.2 pu.1 (fun h => hu h.symm) d]
    · intro pu' hpu'
      rw [dict_append_keys]
      exact hmem pu' (List.mem_cons_of_mem pu hpu')

/-- Filtering a positionally-zipped list on its second component counts the
occurrences in the second list, when the lists have equal length. -/
lemma zip_filter_count (u : String) :
    ∀ (xs : List α) (ys : List String), xs.length = ys.length →
      ((xs.zip ys).filter (fun pu => pu.2 = u)).length = ys.count u := by
  intro xs
  induction xs with
  | nil =>
    intro ys h
    cases ys with
    | nil => rfl
    | cons y ys' => simp at h
  | cons x xs' ih =>
    intro ys h
    cases ys with
    | nil => simp at h
    | cons y ys' =>
      have h' : xs'.length = ys'.length := by simpa using h
      simp only [List.zip_cons_cons, List.filter_cons]
      by_cases hy : y = u
      · rw [if_pos (by simp [hy])]
        simp only [List.length_cons, ih ys' h', List.count_cons]
        simp [hy]
      · rw [if_neg (by simp [hy])]
        rw [ih ys' h', List.count_cons]
        simp [hy]

end PartitionLemmas

/-- Claim C3, counterexample: with 5 results, 3 accounts and the valid random
outcome that draws account `"a"` for both remainder posts, account `"a"`
receives 3 results, which is neither `floor(5/3) = 1` nor `ceil(5/3) = 2` —
the remainder is drawn with replacement, not one-per-account. -/
theorem C3_counterexample :
    (∀ d ∈ ["a", "a"], d ∈ ["a", "b", "c"]) ∧
    (["a", "a"] : List String).length =
      (([1, 2, 3, 4, 5] : List Nat).drop
        (["a", "b", "c"].length * posts_per_account 5 3)).length ∧
    (dict_get "a"
      (posts_for_accounts [1, 2, 3, 4, 5] ["a", "b", "c"] [1, 2, 3, 4, 5]
        ["a", "a"])).length = 3 ∧
    ¬((3 : Nat) = 5 / 3 ∨ (3 : Nat) = 5 / 3 + 1) := by
  refine ⟨by decide, by decide, by decide, by decide⟩

/-- Claim C3, amended: with distinct account usernames, any permutation
`shuffled` of the `P` results and any remainder draws (one per remaining
post, each naming a configured account, drawn with replacement), the
per-account counts sum to exactly `P`, and account `i` receives its base
slice of `min ppa (P - i*ppa)` results (where `ppa = posts_per_account P A`,
i.e. `floor(P/A)` bumped to 1 when that is 0 and `P > 0`) plus one result per
remainder draw of its name — so an account may receive up to
`ppa + (P mod A)` results. -/
theorem C3_partition_amended {α : Type} (target_posts shuffled : List α)
    (usernames draws : List String)
    (hnd : usernames.Nodup)
    (hlen : shuffled.length = target_posts.length)
    (hdlen : draws.length =
      (shuffled.drop (usernames.length *
        posts_per_account target_posts.length usernames.length)).length)
    (hdmem : ∀ d ∈ draws, d ∈ usernames) :
    dict_total (posts_for_accounts target_posts usernames shuffled draws) =
      target_posts.length ∧
    ∀ (i : Nat) (h : i < usernames.length),
      (dict_get (usernames.get ⟨i, h⟩)
        (posts_for_accounts target_posts usernames shuffled draws)).length =
        min (posts_per_account target_posts.length usernames.length)
            (target_posts.length -
              i * posts_per_account target_posts.length usernames.length) +
        draws.count (usernames.get ⟨i, h⟩) := by
  have hbase : assign_chunks shuffled
      (posts_per_account target_posts.length usernames.length) 0 usernames [] =
      chunk_list shuffled
        (posts_per_account target_posts.length usernames.length) 0 usernames := by
    rw [assign_chunks_eq _ _ usernames 0 [] hnd (by intro u _; simp [dict_keys])]
    simp
  have hkeys : dict_keys (chunk_list shuffled
      (posts_per_account target_posts.length usernames.length) 0 usernames) =
      usernames := chunk_list_keys _ _ usernames 0
  have hmem : ∀ pu ∈ (shuffled.drop (usernames.length *
      posts_per_account target_posts.length usernames.length)).zip draws,
      pu.2 ∈ dict_keys (chunk_list shuffled
        (posts_per_account target_posts.length usernames.length) 0 usernames) := by
    intro pu hpu
    rw [hkeys]
    exact hdmem pu.2 (List.of_mem_zip hpu).2
  rw [List.length_drop] at hdlen
  constructor
  · simp only [posts_for_accounts]
    rw [hbase, remainder_fold_total _ _ hmem, chunk_list_total]
    rw [List.length_zip, List.length_drop]
    omega
  · intro i h
    simp only [posts_for_accounts]
    rw [hbase, remainder_fold_get _ _ _ hmem]
    rw [chunk_list_get shuffled _ usernames hnd 0 i h]
    rw [zip_filter_count (usernames.get ⟨i, h⟩) _ draws (by rw [List.length_drop]; omega)]
    rw [List.length_take, List.length_drop]
    simp only [Nat.zero_add]
    rw [hlen]

/-- Witness for C3's amended theorem on a concrete 5-post, 3-account
instance with remainder draws `["a", "b"]`. -/
theorem C3_partition_amended_witness :
    dict_total (posts_for_accounts [10, 20, 30, 40, 50] ["a", "b", "c"]
      [10, 20, 30, 40, 50] ["a", "b"]) = ([10, 20, 30, 40, 50] : List Nat).length :=
  (C3_partition_amended [10, 20, 30, 40, 50] [10, 20, 30, 40, 50] ["a", "b", "c"]
    ["a", "b"] (by decide) rfl (by decide) (by decide)).1

end Threads
